import Mathlib

/-!
Shallow embedding of the `verify-uv-build-action` demonstration package.

Source files embedded:
- `src/src/myproject/module.py`: the greeter `my_function`.
- `src/src/myproject/__init__.py`: the module body resolving `__version__`
  from `importlib.metadata.version` with a `"0.0.0"` fallback on
  `PackageNotFoundError`.
- `src/tests/package_checks.py`: the checker script whose `check_version`
  asserts `myproject.__version__ != "0.0.0"`.

The host environment is modelled by a metadata registry mapping a
distribution name to the recorded version string when the distribution is
installed (`Option String`). Python import semantics (the module body runs
once and the resulting module object is cached in `sys.modules`) are
modelled by a small `Process` state.
-/

/-- The exception `importlib.metadata.PackageNotFoundError`, imported at
`src/src/myproject/__init__.py` line 18. -/
inductive PackageNotFoundError where
  | mk : PackageNotFoundError
deriving DecidableEq

/-- The exception raised by a failing Python `assert` statement. -/
inductive AssertionError where
  | mk : AssertionError
deriving DecidableEq

/-- A metadata registry of the host: maps a distribution name to the
version string recorded for it, or `none` when it is not installed. -/
def Registry : Type := String → Option String

/-- `importlib.metadata.version(name)`: returns the version string the
registry records for `name`, raising `PackageNotFoundError` when the
distribution is not registered. -/
def metadataVersion (reg : Registry) (name : String) :
    Except PackageNotFoundError String :=
  match reg name with
  | some v => Except.ok v
  | none => Except.error PackageNotFoundError.mk

/-- One part of a Python f-string: a literal chunk, or an interpolated
expression whose value is already a string (Python applies `str`, the
identity on strings). -/
inductive FStringPart where
  | lit : String → FStringPart
  | interp : String → FStringPart

/-- Evaluation of a Python f-string: concatenate the parts in order. -/
def formatFString : List FStringPart → String
  | [] => ""
  | FStringPart.lit s :: rest => s ++ formatFString rest
  | FStringPart.interp v :: rest => v ++ formatFString rest

/-- `my_function` from `src/src/myproject/module.py` lines 7-16: returns
the f-string `f"Hello {name}!"`. -/
def my_function (name : String) : String :=
  formatFString [FStringPart.lit "Hello ", FStringPart.interp name,
    FStringPart.lit "!"]

/-- The value bound to `__version__` by the `try`/`except` block of
`src/src/myproject/__init__.py` lines 20-24: `version(__name__)` when the
lookup succeeds, the literal `"0.0.0"` when it raises
`PackageNotFoundError`. The distribution name is the package name
`"myproject"`. -/
def dunderVersion (reg : Registry) : String :=
  match metadataVersion reg "myproject" with
  | Except.ok v => v
  | Except.error PackageNotFoundError.mk => "0.0.0"

/-- The module body of `src/src/myproject/__init__.py` lines 20-24 viewed
as an exception transformer: it runs `version(__name__)`, catches
`PackageNotFoundError`, and binds `__version__`. The `Except` result shows
which exceptions, if any, escape module initialization. -/
def moduleInit (reg : Registry) : Except PackageNotFoundError String :=
  match metadataVersion reg "myproject" with
  | Except.ok v => Except.ok v
  | Except.error PackageNotFoundError.mk => Except.ok "0.0.0"

/-- `check_version` from `src/tests/package_checks.py` lines 24-34:
`assert myproject.__version__ != "0.0.0"`, raising `AssertionError` when
the resolved version equals `"0.0.0"`. -/
def check_version (v : String) : Except AssertionError Unit :=
  if v ≠ "0.0.0" then Except.ok () else Except.error AssertionError.mk

/-- `main` from `src/tests/package_checks.py` lines 37-39: runs all custom
package checks, i.e. `check_version()`. -/
def script_main (v : String) : Except AssertionError Unit :=
  check_version v

/-- Process exit code of `python tests/package_checks.py` given the
resolved version `v`: 0 when `main` returns normally, 1 when an uncaught
`AssertionError` terminates the interpreter. -/
def scriptExitCode (v : String) : Nat :=
  match script_main v with
  | Except.ok _ => 0
  | Except.error _ => 1

/-- Diagnostic printed by the interpreter on abnormal termination of the
checker: the traceback names the uncaught exception type; nothing is
printed when the script exits normally. -/
def scriptDiagnostic (v : String) : Option String :=
  match script_main v with
  | Except.ok _ => none
  | Except.error AssertionError.mk => some "AssertionError"

/-- The state of an imported `myproject` module object: the value bound to
its `__version__` attribute when its body ran. -/
structure ModuleState where
  version : String
deriving DecidableEq

/-- A Python process: the `sys.modules` cache entry for `myproject` (if it
has been imported) and the current metadata registry of the host. -/
structure Process where
  loadedMyproject : Option ModuleState
  registry : Registry

/-- `import myproject` under Python import semantics: when the module is
already in `sys.modules` its cached object is returned unchanged;
otherwise the module body (`src/src/myproject/__init__.py`) runs once
against the current registry and the resulting module object is cached. -/
def importMyproject (p : Process) : Process × ModuleState :=
  match p.loadedMyproject with
  | some m => (p, m)
  | none =>
      let m : ModuleState := ⟨dunderVersion p.registry⟩
      ({ p with loadedMyproject := some m }, m)

/-- Reading the attribute `myproject.__version__` on an imported module
object: a plain attribute read, no process state is touched. -/
def readVersionAttr (p : Process) (m : ModuleState) : Process × String :=
  (p, m.version)

/-- Calling `my_function` inside a process: the body of
`src/src/myproject/module.py` evaluates a single f-string and neither
reads nor writes any process state. -/
def callMyFunction (p : Process) (name : String) : Process × String :=
  (p, my_function name)

/-- Registry of a host on which `myproject` is not installed. -/
def emptyRegistry : Registry := fun _ => none

/-- Registry of a host whose metadata records version `"0.0.0"` for the
`myproject` distribution. -/
def placeholderRegistry : Registry :=
  fun n => if n = "myproject" then some "0.0.0" else none

/-- Registry of a host whose metadata records version `"1.2.3"` for the
`myproject` distribution. -/
def sampleRegistry : Registry :=
  fun n => if n = "myproject" then some "1.2.3" else none

/-- C1: for every string `s` (including the empty string), `my_function s`
returns exactly the concatenation of `"Hello "`, `s`, and `"!"`; in
particular `my_function "World" = "Hello World!"` and
`my_function "" = "Hello !"`. -/
theorem my_function_concat (s : String) :
    my_function s = "Hello " ++ s ++ "!" ∧
    my_function "World" = "Hello World!" ∧
    my_function "" = "Hello !" := by
  refine ⟨?_, rfl, rfl⟩
  simp [my_function, formatFString, String.append_assoc]

/-- C2: whenever the metadata lookup fails (the `myproject` distribution
is not registered, so `version` raises `PackageNotFoundError`), the module
attribute `__version__` equals exactly the fallback literal `"0.0.0"`. -/
theorem dunderVersion_fallback (reg : Registry)
    (h : reg "myproject" = none) : dunderVersion reg = "0.0.0" := by
  simp [dunderVersion, metadataVersion, h]

/-- Witness for C2 at the registry of an uninstalled host. -/
theorem dunderVersion_fallback_witness :
    emptyRegistry "myproject" = none ∧ dunderVersion emptyRegistry = "0.0.0" :=
  ⟨rfl, dunderVersion_fallback emptyRegistry rfl⟩

/-- C3: the checker script exits with code 0 when the resolved version is
not `"0.0.0"`, and with code 1 (via an uncaught `AssertionError`) when the
resolved version equals `"0.0.0"`. -/
theorem scriptExitCode_spec (v : String) :
    (v ≠ "0.0.0" → scriptExitCode v = 0) ∧
    (v = "0.0.0" → scriptExitCode v = 1) := by
  constructor
  · intro h
    simp [scriptExitCode, script_main, check_version, h]
  · intro h
    simp [scriptExitCode, script_main, check_version, h]

/-- Witness for C3 at the versions `"1.2.3"` and `"0.0.0"`. -/
theorem scriptExitCode_spec_witness :
    scriptExitCode "1.2.3" = 0 ∧ scriptExitCode "0.0.0" = 1 :=
  ⟨(scriptExitCode_spec "1.2.3").1 (by decide),
   (scriptExitCode_spec "0.0.0").2 rfl⟩

/-- C4: when the metadata lookup succeeds, `__version__` equals the
version string the registry records for the `myproject` distribution,
exactly as stored, with no parsing or validation applied. -/
theorem dunderVersion_exact (reg : Registry) (v : String)
    (h : reg "myproject" = some v) : dunderVersion reg = v := by
  simp [dunderVersion, metadataVersion, h]

/-- Witness for C4 at a registry recording `"1.2.3"`. -/
theorem dunderVersion_exact_witness :
    sampleRegistry "myproject" = some "1.2.3" ∧
    dunderVersion sampleRegistry = "1.2.3" :=
  ⟨rfl, dunderVersion_exact sampleRegistry "1.2.3" rfl⟩

/-- C5: a metadata lookup failure never propagates out of module
initialization: for every registry the module body returns normally, it
returns exactly the resolved `__version__`, and in the failure case the
result is the sentinel `"0.0.0"`. -/
theorem moduleInit_no_exception (reg : Registry) :
    (moduleInit reg).isOk = true ∧
    moduleInit reg = Except.ok (dunderVersion reg) ∧
    (reg "myproject" = none → moduleInit reg = Except.ok "0.0.0") := by
  refine ⟨?_, ?_, ?_⟩
  · simp only [moduleInit, metadataVersion]
    cases reg "myproject" <;> rfl
  · simp only [moduleInit, dunderVersion, metadataVersion]
    cases reg "myproject" <;> rfl
  · intro h
    simp [moduleInit, metadataVersion, h]

/-- Witness for C5 at the registry of an uninstalled host. -/
theorem moduleInit_no_exception_witness :
    (moduleInit emptyRegistry).isOk = true ∧
    moduleInit emptyRegistry = Except.ok "0.0.0" :=
  ⟨(moduleInit_no_exception emptyRegistry).1,
   (moduleInit_no_exception emptyRegistry).2.2 rfl⟩

/-- C6 counterexample: a host whose metadata is present but records
`"0.0.0"` for `myproject` yields `__version__ = "0.0.0"`, so metadata
presence alone does not make `__version__` a non-empty string different
from `"0.0.0"`. -/
theorem dunderVersion_installed_counterexample :
    (placeholderRegistry "myproject").isSome = true ∧
    ¬(dunderVersion placeholderRegistry ≠ "0.0.0" ∧
      dunderVersion placeholderRegistry ≠ "") := by
  refine ⟨rfl, ?_⟩
  intro h
  exact h.1 rfl

/-- C6 (amended): when the package is installed and its distribution
metadata records a non-empty version string different from `"0.0.0"`,
the constant `__version__` is a non-empty string different from
`"0.0.0"`. -/
theorem dunderVersion_installed (reg : Registry) (v : String)
    (h : reg "myproject" = some v) (h0 : v ≠ "0.0.0") (he : v ≠ "") :
    dunderVersion reg ≠ "0.0.0" ∧ dunderVersion reg ≠ "" := by
  rw [dunderVersion_exact reg v h]
  exact ⟨h0, he⟩

/-- Witness for the amended C6 at a registry recording `"1.2.3"`. -/
theorem dunderVersion_installed_witness :
    dunderVersion sampleRegistry ≠ "0.0.0" ∧ dunderVersion sampleRegistry ≠ "" :=
  dunderVersion_installed sampleRegistry "1.2.3" rfl (by decide) (by decide)

/-- C7: when the checker assertion fails (the resolved version equals the
fallback literal), the process terminates with a non-zero status and a
diagnostic naming the failed check. -/
theorem script_failure_diagnostic (v : String) (h : v = "0.0.0") :
    scriptExitCode v ≠ 0 ∧ scriptDiagnostic v = some "AssertionError" := by
  subst h
  exact ⟨by decide, rfl⟩

/-- Witness for C7 at the fallback version `"0.0.0"`. -/
theorem script_failure_diagnostic_witness :
    scriptExitCode "0.0.0" ≠ 0 ∧
    scriptDiagnostic "0.0.0" = some "AssertionError" :=
  script_failure_diagnostic "0.0.0" rfl

/-- C8: version resolution runs exactly once, at first import: the very
first import of `myproject` resolves `__version__` against the registry
at that moment, and a later import after the registry changes returns the
cached module unchanged, with no re-resolution and no state change. -/
theorem importMyproject_cached (reg₀ reg' : Registry) :
    (importMyproject ⟨none, reg₀⟩).2.version = dunderVersion reg₀ ∧
    (importMyproject
      { (importMyproject ⟨none, reg₀⟩).1 with registry := reg' }).2 =
      (importMyproject ⟨none, reg₀⟩).2 ∧
    (importMyproject
      { (importMyproject ⟨none, reg₀⟩).1 with registry := reg' }).1 =
      { (importMyproject ⟨none, reg₀⟩).1 with registry := reg' } :=
  ⟨rfl, rfl, rfl⟩

/-- C9: the greeter is deterministic and side-effect free, and version
reads are stable: calling `my_function` in any two process states with the
same input returns identical outputs and leaves the state unchanged, and
reading `__version__` twice on the same module yields the same value with
no state change. -/
theorem myproject_pure (p q : Process) (name : String) (m : ModuleState) :
    (callMyFunction p name).2 = (callMyFunction q name).2 ∧
    (callMyFunction p name).1 = p ∧
    (readVersionAttr p m).1 = p ∧
    (readVersionAttr ((readVersionAttr p m).1) m).2 =
      (readVersionAttr p m).2 :=
  ⟨rfl, rfl, rfl, rfl⟩

/-- C10: `check_version` raises `AssertionError` iff the resolved version
equals `"0.0.0"`; in particular, when the installed metadata itself
records `"0.0.0"`, the fallback path is not taken (the lookup succeeds)
yet the checker exits with code 1 — checker success only establishes that
the version string differs from `"0.0.0"`, not that metadata was
present. -/
theorem check_version_iff :
    (∀ v, (check_version v).isOk = false ↔ v = "0.0.0") ∧
    placeholderRegistry "myproject" = some "0.0.0" ∧
    dunderVersion placeholderRegistry = "0.0.0" ∧
    scriptExitCode (dunderVersion placeholderRegistry) = 1 := by
  refine ⟨?_, rfl, rfl, rfl⟩
  intro v
  by_cases h : v = "0.0.0"
  · simp [check_version, h, Except.isOk, Except.toBool]
  · simp [check_version, h, Except.isOk, Except.toBool]
